import Mathlib

/-!
# Verification of the deno_kv_oauth session core

Shallow embedding of the OAuth session/cookie lifecycle of the
`deno_kv_oauth` repository: the callback orchestrator `handleCallback`
(`handle_callback.ts`), the helper factory `createHelpers`
(`lib/create_helpers.ts`), and the collaborators they call
(`_http.ts` cookie codec and `_kv.ts` session managers, modelled from
the specification where the source file is not part of the checkout).

Effects are made explicit: the KV store is an association list threaded
through the operations, randomness (fresh session ids) and the OAuth
client's token exchange are parameters, and thrown errors are an
`Except`-style sum carried next to the resulting store so that writes
performed before a throw persist, exactly as they do against a real
store.
-/

set_option autoImplicit false

namespace KvOAuth

/-- Logical time in milliseconds (the unit of the store's TTLs). -/
abbrev Time := Int

/-- Error taxonomy of the core (spec §7). `tokenExchange` carries the
provider's message so propagation can be stated verbatim. -/
inductive OAuthError where
  | missingCookie
  | notFound
  | tokenExchange (message : String)
  | storage
deriving Repr, DecidableEq

/-- Token set returned by the OAuth client's code exchange. -/
structure Tokens where
  accessToken : String
  refreshToken : Option String := none
deriving Repr, DecidableEq

/-- Ephemeral OAuth handshake record (spec §3 OAuthSession). -/
structure OAuthSession where
  state : String
  codeVerifier : String
  successUrl : String
deriving Repr, DecidableEq

/-! ## KV store model

The external KV collaborator (spec §6): a key→record store where every
entry may carry an absolute expiry instant; an expired entry is
observationally absent (expiry enforcement is delegated to the store,
spec §5). -/

/-- A stored record together with its optional absolute expiry time. -/
structure Entry (α : Type) where
  value : α
  expiresAt : Option Time
deriving Repr, DecidableEq

/-- The store itself: an association list from keys to entries. -/
abbrev KV (α : Type) := List (String × Entry α)

/-- An entry counts as live while `now` is before its expiry. -/
def Entry.live {α : Type} (e : Entry α) (now : Time) : Bool :=
  match e.expiresAt with
  | none => true
  | some t => decide (now < t)

/-- `get`: a dead (expired) entry reads back as absent. -/
def kvGet {α : Type} (kv : KV α) (now : Time) (k : String) : Option α :=
  match kv.lookup k with
  | none => none
  | some e => if e.live now then some e.value else none

/-- `delete`: removes every binding of the key (idempotent). -/
def kvDelete {α : Type} (kv : KV α) (k : String) : KV α :=
  kv.filter (fun p => !(p.1 == k))

/-- `put` with optional TTL: the expiry instant is `now + ttl`. -/
def kvSet {α : Type} (kv : KV α) (now : Time) (k : String) (v : α)
    (ttl : Option Int) : KV α :=
  (k, ⟨v, ttl.map (now + ·)⟩) :: kvDelete kv k

/-! ## Cookie codec (`_http.ts`) -/

/-- Cookie purpose name for the handshake cookie (spec §3). -/
def OAUTH_COOKIE_NAME : String := "oauth-session"

/-- Cookie purpose name for the site cookie (spec §3). -/
def SITE_COOKIE_NAME : String := "site-session"

/-- Modelled from the spec: `isHttps` from `_http.ts` (file not in the
checkout) — whether the request URL scheme is `https`. -/
def isHttps (url : String) : Bool :=
  "https://".data.isPrefixOf url.data

/-- Modelled from the spec: `getCookieName` from `_http.ts` (file not in
the checkout) — deterministic pure naming: the purpose name, with a
browser security-prefix convention prefix when the request is HTTPS. -/
def getCookieName (name : String) (https : Bool) : String :=
  if https then "__Secure-" ++ name else name

/-- `SameSite` attribute values. -/
inductive SameSite where
  | strict
  | lax
  | noRestriction
deriving Repr, DecidableEq

/-- An HTTP cookie as built by the core; attributes other than
`name`/`value` are optional, mirroring the TypeScript `Cookie` type. -/
structure Cookie where
  name : String
  value : String
  secure : Option Bool := none
  httpOnly : Option Bool := none
  sameSite : Option SameSite := none
  path : Option String := none
  domain : Option String := none
  maxAge : Option Int := none
deriving Repr, DecidableEq

/-- A `Partial<Cookie>`: each field either absent or overriding. -/
structure CookieOverrides where
  name : Option String := none
  value : Option String := none
  secure : Option Bool := none
  httpOnly : Option Bool := none
  sameSite : Option SameSite := none
  path : Option String := none
  domain : Option String := none
  maxAge : Option Int := none
deriving Repr, DecidableEq

/-- Object-spread semantics `{...c, ...ov}`: a field present in the
override wins, otherwise the base field stands. -/
def applyOverrides (c : Cookie) (ov : CookieOverrides) : Cookie :=
  { name := ov.name.getD c.name
    value := ov.value.getD c.value
    secure := ov.secure <|> c.secure
    httpOnly := ov.httpOnly <|> c.httpOnly
    sameSite := ov.sameSite <|> c.sameSite
    path := ov.path <|> c.path
    domain := ov.domain <|> c.domain
    maxAge := ov.maxAge <|> c.maxAge }

/-- Modelled from the spec: `COOKIE_BASE` from `_http.ts` (file not in
the checkout) — default attributes `HttpOnly=true`, `SameSite=Lax`,
`Path=/`; `Domain` and `MaxAge` unset (spec §3). -/
def COOKIE_BASE : CookieOverrides :=
  { httpOnly := some true, sameSite := some .lax, path := some "/" }

/-- The HTTP response surface the core produces: a status, an optional
`Location` header, and the list of `Set-Cookie` headers. -/
structure Response where
  status : Nat := 200
  location : Option String := none
  setCookies : List Cookie := []
deriving Repr, DecidableEq

/-- Modelled from the spec: `redirect` from `_http.ts` (file not in the
checkout) — an HTTP 302 redirect to the given location. -/
def redirect (location : String) : Response :=
  { status := 302, location := some location }

/-- `setCookie(response.headers, cookie)`: appends a `Set-Cookie`. -/
def setCookie (r : Response) (c : Cookie) : Response :=
  { r with setCookies := r.setCookies ++ [c] }

/-- `getCookies(request.headers)[name]`: lookup in the parsed request
cookie map. -/
def getCookies (cookies : List (String × String)) (name : String) :
    Option String :=
  cookies.lookup name

/-! ## Session managers (`_kv.ts`) -/

/-- Fixed handshake TTL: 10 minutes, in milliseconds (spec §4.2). -/
def OAUTH_SESSION_TTL : Int := 10 * 60 * 1000

/-- Modelled from the spec: `setOAuthSession` from `_kv.ts` (file not in
the checkout) — writes the handshake record under its id with the fixed
short TTL (spec §4.2 `create`). -/
def setOAuthSession (now : Time) (id : String) (s : OAuthSession)
    (kv : KV OAuthSession) : KV OAuthSession :=
  kvSet kv now id s (some OAUTH_SESSION_TTL)

/-- Modelled from the spec: `getAndDeleteOAuthSession` from `_kv.ts`
(file not in the checkout) — the atomic read-and-delete (`consume`,
spec §4.2): one single step that either observes a live record and
removes it, or fails with `NotFoundError` when the id is unknown,
already consumed, or expired. -/
def getAndDeleteOAuthSession (now : Time) (id : String)
    (kv : KV OAuthSession) :
    Except OAuthError (OAuthSession × KV OAuthSession) :=
  match kvGet kv now id with
  | none => .error .notFound
  | some s => .ok (s, kvDelete kv id)

/-- Modelled from the spec: `setSiteSession` from `_kv.ts` (file not in
the checkout) — writes an empty marker record under the site session id
with the given TTL, or no expiry if absent (spec §4.3 `create`). -/
def setSiteSession (now : Time) (id : String) (ttl : Option Int)
    (kv : KV Unit) : KV Unit :=
  kvSet kv now id () ttl

/-- `SECOND` from the std time constants: one second in milliseconds. -/
def SECOND : Int := 1000

/-! ## Callback orchestrator (`handle_callback.ts`) -/

/-- Options for `handleCallback` (source `HandleCallbackOptions`). -/
structure HandleCallbackOptions where
  cookieOptions : Option CookieOverrides := none
deriving Repr, DecidableEq

/-- The two KV namespaces threaded through the flow. -/
structure KVState where
  oauth : KV OAuthSession
  site : KV Unit
deriving Repr, DecidableEq

/-- The record `handleCallback` resolves with on success. -/
structure CallbackOutput where
  response : Response
  sessionId : String
  tokens : Tokens
deriving Repr, DecidableEq

/-- The site cookie object literal of `handle_callback.ts` lines 75–81:
`{...COOKIE_BASE, name: getCookieName(SITE_COOKIE_NAME, isHttps(url)),
value: sessionId, secure: isHttps(url), ...options?.cookieOptions}`.
Spread order is preserved: the base and the three recomputed fields
first, the caller overrides last. -/
def siteCookie (https : Bool) (sessionId : String) (ov : CookieOverrides) :
    Cookie :=
  applyOverrides
    { name := getCookieName SITE_COOKIE_NAME https
      value := sessionId
      secure := some https
      httpOnly := COOKIE_BASE.httpOnly
      sameSite := COOKIE_BASE.sameSite
      path := COOKIE_BASE.path
      domain := COOKIE_BASE.domain
      maxAge := COOKIE_BASE.maxAge }
    ov

/-- JS truthiness on `cookie.maxAge`: `cookie.maxAge ? cookie.maxAge *
SECOND : undefined` (line 85) — absent or zero is falsy. -/
def siteSessionTtl (maxAge : Option Int) : Option Int :=
  match maxAge with
  | none => none
  | some m => if m = 0 then none else some (m * SECOND)

/-- `handleCallback` from `handle_callback.ts` lines 53–93, with the
effects explicit: `now` is the store's clock, `reqUrl`/`reqCookies` are
the request's URL and parsed cookies, `getToken` is the OAuth client's
`code.getToken` bound to the configuration, `newSessionId` the value
`crypto.randomUUID()` yields, and `st` the KV state.  The result pairs
the final KV state with either the thrown error or the resolved output,
so writes performed before a throw persist. -/
def handleCallback (now : Time) (reqUrl : String)
    (reqCookies : List (String × String))
    (getToken : String → OAuthSession → Except OAuthError Tokens)
    (newSessionId : String) (options : Option HandleCallbackOptions)
    (st : KVState) : KVState × Except OAuthError CallbackOutput :=
  let oauthCookieName := getCookieName OAUTH_COOKIE_NAME (isHttps reqUrl)
  match getCookies reqCookies oauthCookieName with
  | none => (st, .error .missingCookie)
  | some oauthSessionId =>
    match getAndDeleteOAuthSession now oauthSessionId st.oauth with
    | .error e => (st, .error e)
    | .ok (oauthSession, oauth') =>
      let st1 : KVState := { st with oauth := oauth' }
      match getToken reqUrl oauthSession with
      | .error e => (st1, .error e)
      | .ok tokens =>
        let sessionId := newSessionId
        let response := redirect oauthSession.successUrl
        let cookie := siteCookie (isHttps reqUrl) sessionId
          ((options.bind (·.cookieOptions)).getD {})
        let response := setCookie response cookie
        let st2 : KVState :=
          { st1 with
            site := setSiteSession now sessionId
              (siteSessionTtl cookie.maxAge) st1.site }
        (st2, .ok { response := response, sessionId := sessionId,
                    tokens := tokens })

/-! ## Remaining flow operations (`sign_in.ts`, `get_session_id.ts`,
`sign_out.ts`), modelled from the spec -/

/-- Modelled from the spec: `signIn` from `sign_in.ts` (file not in the
checkout) — spec §4.4 Sign-In: resolve the success URL (explicit option,
else the request's Referer, else `"/"`); take the authorization URL,
`state` and PKCE verifier produced by the OAuth client; create the
handshake record; set the handshake cookie to the new id via the cookie
codec; return a 302 redirect to the authorization URL with the cookie
attached. -/
def signIn (now : Time) (reqUrl : String) (referer : Option String)
    (authorizationUrl state codeVerifier : String)
    (newOauthSessionId : String) (successUrlOption : Option String)
    (kv : KV OAuthSession) : KV OAuthSession × Response :=
  let successUrl := successUrlOption.getD (referer.getD "/")
  let id := newOauthSessionId
  let kv' := setOAuthSession now id ⟨state, codeVerifier, successUrl⟩ kv
  let cookie : Cookie :=
    { name := getCookieName OAUTH_COOKIE_NAME (isHttps reqUrl)
      value := id
      secure := some (isHttps reqUrl)
      httpOnly := COOKIE_BASE.httpOnly
      sameSite := COOKIE_BASE.sameSite
      path := COOKIE_BASE.path
      domain := COOKIE_BASE.domain
      maxAge := COOKIE_BASE.maxAge }
  (kv', setCookie (redirect authorizationUrl) cookie)

/-- Options of the standalone `getSessionId` (as invoked by
`create_helpers.ts`): an optional full cookie name. -/
structure GetSessionIdOptions where
  cookieName : Option String := none
deriving Repr, DecidableEq

/-- Modelled from the spec: `getSessionId` from `get_session_id.ts`
(file not in the checkout) — spec §4.4 Session lookup: read the site
cookie (under the caller-supplied name when given, else the computed
one); when present, return the id only if the backing record still
exists, else absent. -/
def getSessionId (now : Time) (reqUrl : String)
    (reqCookies : List (String × String))
    (options : Option GetSessionIdOptions) (site : KV Unit) :
    Option String :=
  let cookieName := (options.bind (·.cookieName)).getD
    (getCookieName SITE_COOKIE_NAME (isHttps reqUrl))
  match getCookies reqCookies cookieName with
  | none => none
  | some sessionId =>
      if (kvGet site now sessionId).isSome then some sessionId else none

/-- Options of the standalone `signOut` (as invoked by
`create_helpers.ts`). -/
structure SignOutOptions where
  cookieOptions : Option CookieOverrides := none
deriving Repr, DecidableEq

/-- Modelled from the spec: `signOut` from `sign_out.ts` (file not in
the checkout) — spec §4.4 Sign-Out: read the site cookie (absent: plain
redirect to `"/"`, no error); delete the site session record
(idempotent); clear the cookie with an immediately-expired max-age and
redirect to `"/"`. -/
def signOut (_now : Time) (reqUrl : String)
    (reqCookies : List (String × String))
    (options : Option SignOutOptions) (site : KV Unit) :
    KV Unit × Response :=
  let cookieName := ((options.bind (·.cookieOptions)).bind (·.name)).getD
    (getCookieName SITE_COOKIE_NAME (isHttps reqUrl))
  match getCookies reqCookies cookieName with
  | none => (site, redirect "/")
  | some sessionId =>
      let site' := kvDelete site sessionId
      let cookie : Cookie :=
        { name := cookieName
          value := ""
          secure := some (isHttps reqUrl)
          httpOnly := COOKIE_BASE.httpOnly
          sameSite := COOKIE_BASE.sameSite
          path := COOKIE_BASE.path
          domain := COOKIE_BASE.domain
          maxAge := some 0 }
      (site', setCookie (redirect "/") cookie)

/-! ## Helper factory (`lib/create_helpers.ts`) -/

/-- Options for `createHelpers` (source `CreateHelpersOptions`). -/
structure CreateHelpersOptions where
  cookieOptions : Option CookieOverrides := none
deriving Repr, DecidableEq

/-- The record of bound helpers `createHelpers` returns.  The request,
per-call sign-in options, and result types are abstract: the closures
only forward. -/
structure Helpers (Req SIOpts Resp CbRes SoRes GsRes : Type) where
  signIn : Req → Option SIOpts → Resp
  handleCallback : Req → CbRes
  signOut : Req → SoRes
  getSessionId : Req → GsRes

/-- `createHelpers` from `lib/create_helpers.ts` lines 64–95.  The four
standalone operations it closes over are imports in the source, so they
are parameters here (`signIn_`, `handleCallback_`, `signOut_`,
`getSessionId_`), with the argument shapes of the TypeScript
signatures; `createHelpers` itself contributes exactly the forwarding
of the construction-time configuration and options. -/
def createHelpers {Req SIOpts Resp CbRes SoRes GsRes Cfg : Type}
    (signIn_ : Req → Cfg → Option SIOpts → Resp)
    (handleCallback_ : Req → Cfg → Option HandleCallbackOptions → CbRes)
    (signOut_ : Req → Option SignOutOptions → SoRes)
    (getSessionId_ : Req → Option GetSessionIdOptions → GsRes)
    (oauthConfig : Cfg) (options : Option CreateHelpersOptions) :
    Helpers Req SIOpts Resp CbRes SoRes GsRes :=
  { signIn := fun request opts => signIn_ request oauthConfig opts
    handleCallback := fun request =>
      handleCallback_ request oauthConfig
        (some { cookieOptions := options.bind (·.cookieOptions) })
    signOut := fun request =>
      signOut_ request
        (some { cookieOptions := options.bind (·.cookieOptions) })
    getSessionId := fun request =>
      getSessionId_ request
        (some { cookieName := (options.bind (·.cookieOptions)).bind
                  (·.name) }) }

/-! ## Store lemmas -/

theorem lookup_kvDelete {α : Type} (kv : KV α) (k : String) :
    (kvDelete kv k).lookup k = none := by
  induction kv with
  | nil => rfl
  | cons p rest ih =>
    by_cases h : p.1 = k
    · have hb : (p.1 == k) = true := beq_iff_eq.mpr h
      simpa [kvDelete, List.filter_cons, hb] using ih
    · have hb : (p.1 == k) = false := beq_eq_false_iff_ne.mpr h
      have hb' : (k == p.1) = false := beq_eq_false_iff_ne.mpr (Ne.symm h)
      simp only [kvDelete, List.filter_cons, hb, Bool.not_false, if_pos,
        List.lookup, hb']
      exact ih

theorem kvGet_kvDelete {α : Type} (kv : KV α) (now : Time) (k : String) :
    kvGet (kvDelete kv k) now k = none := by
  simp [kvGet, lookup_kvDelete]

theorem getAndDelete_of_kvGet (now : Time) (id : String)
    (kv : KV OAuthSession) (s : OAuthSession)
    (h : kvGet kv now id = some s) :
    getAndDeleteOAuthSession now id kv = .ok (s, kvDelete kv id) := by
  simp [getAndDeleteOAuthSession, h]

theorem getAndDelete_deleted (now : Time) (id : String)
    (kv : KV OAuthSession) :
    getAndDeleteOAuthSession now id (kvDelete kv id) = .error .notFound := by
  simp [getAndDeleteOAuthSession, kvGet_kvDelete]

theorem lookup_kvSet_self {α : Type} (kv : KV α) (now : Time) (k : String)
    (v : α) (ttl : Option Int) :
    (kvSet kv now k v ttl).lookup k = some ⟨v, ttl.map (now + ·)⟩ := by
  simp [kvSet, List.lookup]

theorem kvGet_setOAuthSession (t tc : Time) (id : String)
    (s : OAuthSession) (kv : KV OAuthSession) :
    kvGet (setOAuthSession t id s kv) tc id =
      if tc < t + OAUTH_SESSION_TTL then some s else none := by
  simp only [setOAuthSession, kvGet, lookup_kvSet_self, Option.map_some,
    Entry.live]
  by_cases h : tc < t + OAUTH_SESSION_TTL
  · simp [h]
  · simp [h]

/-! ## Claim theorems -/

/-- C2: when two concurrent callback requests present the same handshake
cookie (same OAuth session id), atomicity of the read-and-delete makes
every interleaving one of the two sequential orders of the two consumes;
in either order the consume that runs first observes the record and the
other deterministically receives not-found — exactly one of the two
succeeds. -/
theorem concurrent_consume_exactly_one (now now2 : Time) (id : String)
    (kv : KV OAuthSession) (s : OAuthSession)
    (h : kvGet kv now id = some s) :
    getAndDeleteOAuthSession now id kv = .ok (s, kvDelete kv id) ∧
    getAndDeleteOAuthSession now2 id (kvDelete kv id) =
      .error .notFound :=
  ⟨getAndDelete_of_kvGet now id kv s h, getAndDelete_deleted now2 id kv⟩

/-- Witness for C2 at a concrete store holding the handshake record. -/
theorem concurrent_consume_exactly_one_witness :
    kvGet ([("o1", ⟨⟨"s", "v", "/done"⟩, none⟩)] : KV OAuthSession) 0
      "o1" = some ⟨"s", "v", "/done"⟩ ∧
    (getAndDeleteOAuthSession 0 "o1"
        ([("o1", ⟨⟨"s", "v", "/done"⟩, none⟩)] : KV OAuthSession) =
      .ok (⟨"s", "v", "/done"⟩,
        kvDelete ([("o1", ⟨⟨"s", "v", "/done"⟩, none⟩)] : KV OAuthSession)
          "o1") ∧
    getAndDeleteOAuthSession 0 "o1"
        (kvDelete ([("o1", ⟨⟨"s", "v", "/done"⟩, none⟩)] : KV OAuthSession)
          "o1") = .error .notFound) :=
  ⟨by decide, concurrent_consume_exactly_one 0 0 "o1" _ _ (by decide)⟩

/-- C3: a handshake record created by a sign-in is retrievable exactly
once: before its TTL elapses the first consume returns the stored
record and every later consume of the same id fails with not-found;
a consume after the TTL has elapsed fails with not-found; and a consume
of any id the store does not hold fails with not-found. -/
theorem consume_created_exactly_once (t tc : Time) (reqUrl : String)
    (referer sUrlOpt : Option String) (authUrl stt cv id : String)
    (kv : KV OAuthSession) :
    (tc < t + OAUTH_SESSION_TTL →
      ∃ kv2, getAndDeleteOAuthSession tc id
          (signIn t reqUrl referer authUrl stt cv id sUrlOpt kv).1 =
          .ok (⟨stt, cv, sUrlOpt.getD (referer.getD "/")⟩, kv2) ∧
        ∀ t2 : Time,
          getAndDeleteOAuthSession t2 id kv2 = .error .notFound) ∧
    (t + OAUTH_SESSION_TTL ≤ tc →
      getAndDeleteOAuthSession tc id
          (signIn t reqUrl referer authUrl stt cv id sUrlOpt kv).1 =
        .error .notFound) ∧
    (∀ kv0 : KV OAuthSession, kvGet kv0 tc id = none →
      getAndDeleteOAuthSession tc id kv0 = .error .notFound) := by
  have hsi : (signIn t reqUrl referer authUrl stt cv id sUrlOpt kv).1 =
      setOAuthSession t id
        (⟨stt, cv, sUrlOpt.getD (referer.getD "/")⟩ : OAuthSession) kv :=
    rfl
  refine ⟨fun h => ?_, fun h => ?_, fun kv0 h0 => ?_⟩
  · have hg : kvGet (signIn t reqUrl referer authUrl stt cv id sUrlOpt
        kv).1 tc id =
        some (⟨stt, cv, sUrlOpt.getD (referer.getD "/")⟩ : OAuthSession) := by
      rw [hsi, kvGet_setOAuthSession]; exact if_pos h
    exact ⟨kvDelete (signIn t reqUrl referer authUrl stt cv id sUrlOpt
        kv).1 id,
      getAndDelete_of_kvGet tc id _ _ hg,
      fun t2 => getAndDelete_deleted t2 id _⟩
  · have hg : kvGet (signIn t reqUrl referer authUrl stt cv id sUrlOpt
        kv).1 tc id = none := by
      rw [hsi, kvGet_setOAuthSession]; exact if_neg (not_lt.mpr h)
    simp [getAndDeleteOAuthSession, hg]
  · simp [getAndDeleteOAuthSession, h0]

/-- Witness for C3: a concrete sign-in at time 0, consumed at time 1
(inside the 10-minute TTL), and the consequent of the first branch. -/
theorem consume_created_exactly_once_witness :
    ((1 : Time) < 0 + OAUTH_SESSION_TTL) ∧
    (∃ kv2, getAndDeleteOAuthSession 1 "o1"
        (signIn 0 "https://x.example/signin" none "https://idp.example/a"
          "s" "v" "o1" (some "/done") []).1 =
        .ok (⟨"s", "v", "/done"⟩, kv2) ∧
      ∀ t2 : Time,
        getAndDeleteOAuthSession t2 "o1" kv2 = .error .notFound) :=
  ⟨by decide,
    (consume_created_exactly_once 0 1 "https://x.example/signin" none
      (some "/done") "https://idp.example/a" "s" "v" "o1" []).1
      (by decide)⟩

/-- C4: a callback request whose parsed cookies hold no entry under the
handshake cookie name computed for the request scheme fails with the
missing-cookie error, leaves both stores untouched (so no handshake
record is consumed and no site session is created), and the result does
not depend on the token-exchange function (so no exchange is
attempted). -/
theorem handleCallback_missing_cookie (now : Time) (reqUrl : String)
    (reqCookies : List (String × String))
    (getToken : String → OAuthSession → Except OAuthError Tokens)
    (newSessionId : String) (options : Option HandleCallbackOptions)
    (st : KVState)
    (h : getCookies reqCookies
      (getCookieName OAUTH_COOKIE_NAME (isHttps reqUrl)) = none) :
    handleCallback now reqUrl reqCookies getToken newSessionId options
      st = (st, .error .missingCookie) := by
  simp [handleCallback, h]

/-- Witness for C4 at a concrete cookie-less request. -/
theorem handleCallback_missing_cookie_witness :
    getCookies []
      (getCookieName OAUTH_COOKIE_NAME (isHttps "http://x.example/cb")) =
      none ∧
    handleCallback 0 "http://x.example/cb" []
        (fun _ _ => .error (.tokenExchange "refused")) "sid" none
        { oauth := [], site := [] } =
      ({ oauth := [], site := [] }, .error .missingCookie) :=
  ⟨rfl, handleCallback_missing_cookie 0 "http://x.example/cb" [] _ "sid"
    none { oauth := [], site := [] } rfl⟩

/-- C5: when the token exchange fails after the handshake cookie was
found and the handshake record consumed, `handleCallback` propagates
the exchange error verbatim; the final state differs from the initial
one only by the already-deleted handshake record — the site store is
untouched (no site session record) and no response is produced (so no
site cookie is set on any response). -/
theorem handleCallback_exchange_failure (now : Time) (reqUrl : String)
    (reqCookies : List (String × String))
    (getToken : String → OAuthSession → Except OAuthError Tokens)
    (newSessionId : String) (options : Option HandleCallbackOptions)
    (st : KVState) (oid : String) (sess : OAuthSession) (e : OAuthError)
    (hc : getCookies reqCookies
      (getCookieName OAUTH_COOKIE_NAME (isHttps reqUrl)) = some oid)
    (hs : kvGet st.oauth now oid = some sess)
    (hx : getToken reqUrl sess = .error e) :
    handleCallback now reqUrl reqCookies getToken newSessionId options
      st = ({ oauth := kvDelete st.oauth oid, site := st.site },
        .error e) := by
  simp [handleCallback, hc, getAndDeleteOAuthSession, hs, hx]

/-- Witness for C5 at a concrete callback whose exchange is refused. -/
theorem handleCallback_exchange_failure_witness :
    getCookies [("__Secure-oauth-session", "o1")]
      (getCookieName OAUTH_COOKIE_NAME (isHttps "https://x.example/cb")) =
      some "o1" ∧
    kvGet ([("o1", ⟨⟨"s", "v", "/done"⟩, none⟩)] : KV OAuthSession) 0
      "o1" = some ⟨"s", "v", "/done"⟩ ∧
    ((fun (_ : String) (_ : OAuthSession) =>
        (.error (.tokenExchange "refused") : Except OAuthError Tokens))
      "https://x.example/cb" ⟨"s", "v", "/done"⟩ =
        .error (.tokenExchange "refused")) ∧
    handleCallback 0 "https://x.example/cb"
        [("__Secure-oauth-session", "o1")]
        (fun _ _ => .error (.tokenExchange "refused")) "sid" none
        { oauth := [("o1", ⟨⟨"s", "v", "/done"⟩, none⟩)],
          site := [("keep", ⟨(), none⟩)] } =
      ({ oauth := kvDelete [("o1", ⟨⟨"s", "v", "/done"⟩, none⟩)] "o1",
         site := [("keep", ⟨(), none⟩)] },
        .error (.tokenExchange "refused")) :=
  ⟨by decide, by decide, rfl,
    handleCallback_exchange_failure 0 "https://x.example/cb"
      [("__Secure-oauth-session", "o1")] _ "sid" none
      { oauth := [("o1", ⟨⟨"s", "v", "/done"⟩, none⟩)],
        site := [("keep", ⟨(), none⟩)] }
      "o1" ⟨"s", "v", "/done"⟩ (.tokenExchange "refused")
      (by decide) (by decide) rfl⟩

/-- C6: a callback with a valid handshake cookie and a successful token
exchange resolves with the token set and a response that is the
302 redirect to the `successUrl` stored in the consumed handshake
record, carrying the site cookie; the returned session id is the value
`crypto.randomUUID()` produced, is the key under which the site session
record is created, and — absent a `value` override in `cookieOptions` —
is the value of the attached site cookie. -/
theorem handleCallback_success (now : Time) (reqUrl : String)
    (reqCookies : List (String × String))
    (getToken : String → OAuthSession → Except OAuthError Tokens)
    (newSessionId : String) (options : Option HandleCallbackOptions)
    (st : KVState) (oid : String) (sess : OAuthSession) (tokens : Tokens)
    (ov : CookieOverrides)
    (hc : getCookies reqCookies
      (getCookieName OAUTH_COOKIE_NAME (isHttps reqUrl)) = some oid)
    (hs : kvGet st.oauth now oid = some sess)
    (hx : getToken reqUrl sess = .ok tokens)
    (hov : ov = (options.bind (·.cookieOptions)).getD {})
    (hv : ov.value = none) :
    handleCallback now reqUrl reqCookies getToken newSessionId options
        st =
      ({ oauth := kvDelete st.oauth oid,
         site := setSiteSession now newSessionId
           (siteSessionTtl
             (siteCookie (isHttps reqUrl) newSessionId ov).maxAge)
           st.site },
       .ok { response := setCookie (redirect sess.successUrl)
               (siteCookie (isHttps reqUrl) newSessionId ov),
             sessionId := newSessionId,
             tokens := tokens }) ∧
    (siteCookie (isHttps reqUrl) newSessionId ov).value = newSessionId ∧
    (setCookie (redirect sess.successUrl)
        (siteCookie (isHttps reqUrl) newSessionId ov)).status = 302 ∧
    (setCookie (redirect sess.successUrl)
        (siteCookie (isHttps reqUrl) newSessionId ov)).location =
      some sess.successUrl ∧
    (setSiteSession now newSessionId
        (siteSessionTtl
          (siteCookie (isHttps reqUrl) newSessionId ov).maxAge)
        st.site).lookup newSessionId ≠ none := by
  subst hov
  refine ⟨?_, ?_, rfl, rfl, ?_⟩
  · simp [handleCallback, hc, getAndDeleteOAuthSession, hs, hx]
  · simp [siteCookie, applyOverrides, hv]
  · simp [setSiteSession, lookup_kvSet_self]

/-- Witness for C6 at a concrete successful callback. -/
theorem handleCallback_success_witness :
    getCookies [("__Secure-oauth-session", "o1")]
      (getCookieName OAUTH_COOKIE_NAME (isHttps "https://x.example/cb")) =
      some "o1" ∧
    kvGet ([("o1", ⟨⟨"s", "v", "/done"⟩, none⟩)] : KV OAuthSession) 0
      "o1" = some ⟨"s", "v", "/done"⟩ ∧
    (({} : CookieOverrides) =
      ((none : Option HandleCallbackOptions).bind
        (·.cookieOptions)).getD {}) ∧
    ({} : CookieOverrides).value = none ∧
    (handleCallback 0 "https://x.example/cb"
        [("__Secure-oauth-session", "o1")]
        (fun _ _ => .ok { accessToken := "tok" }) "sid" none
        { oauth := [("o1", ⟨⟨"s", "v", "/done"⟩, none⟩)], site := [] } =
      ({ oauth :=
           kvDelete ([("o1", ⟨⟨"s", "v", "/done"⟩, none⟩)] :
             KV OAuthSession) "o1",
         site := setSiteSession 0 "sid"
           (siteSessionTtl
             (siteCookie (isHttps "https://x.example/cb") "sid" {}).maxAge)
           [] },
       .ok { response := setCookie (redirect "/done")
               (siteCookie (isHttps "https://x.example/cb") "sid" {}),
             sessionId := "sid",
             tokens := { accessToken := "tok" } }) ∧
    (siteCookie (isHttps "https://x.example/cb") "sid" {}).value =
      "sid" ∧
    (setCookie (redirect "/done")
        (siteCookie (isHttps "https://x.example/cb") "sid" {})).status =
      302 ∧
    (setCookie (redirect "/done")
        (siteCookie (isHttps "https://x.example/cb") "sid" {})).location =
      some "/done" ∧
    (setSiteSession 0 "sid"
        (siteSessionTtl
          (siteCookie (isHttps "https://x.example/cb") "sid" {}).maxAge)
        []).lookup "sid" ≠ none) :=
  ⟨by decide, by decide, rfl, rfl,
    handleCallback_success 0 "https://x.example/cb"
      [("__Secure-oauth-session", "o1")]
      (fun _ _ => .ok { accessToken := "tok" }) "sid" none
      { oauth := [("o1", ⟨⟨"s", "v", "/done"⟩, none⟩)], site := [] }
      "o1" ⟨"s", "v", "/done"⟩ { accessToken := "tok" } {}
      (by decide) (by decide) rfl rfl rfl⟩

/-- C1 as stated is false on the code: over an HTTPS request, a caller
override `secure := false` in `cookieOptions` survives to the emitted
site cookie, because `handle_callback.ts` spreads `options?.cookieOptions`
after — not before — the security-critical `name`/`value`/`secure`
fields; here the emitted cookie's `secure` is `false` although the
request scheme is `https`. -/
theorem secure_override_counterexample :
    isHttps "https://x.example/cb" = true ∧
    (handleCallback 0 "https://x.example/cb"
        [("__Secure-oauth-session", "o1")]
        (fun _ _ => .ok { accessToken := "tok" }) "sid"
        (some { cookieOptions := some { secure := some false } })
        { oauth := [("o1", ⟨⟨"s", "v", "/done"⟩, none⟩)], site := [] }
      ).2.map (fun out => out.response.setCookies.map (·.secure)) =
      .ok [some false] :=
  ⟨by decide, rfl⟩

/-- C1 (amended): provided the caller overrides none of `secure`,
`name` and `value`, the site cookie emitted by `handleCallback` has
`secure` equal to the request-scheme-derived truth, the recomputed
name, and the session id as value; because the source spreads the
overrides after these fields, a caller override can change them, so
the invariant holds only in the absence of such overrides. -/
theorem handleCallback_secure_no_override (now : Time) (reqUrl : String)
    (reqCookies : List (String × String))
    (getToken : String → OAuthSession → Except OAuthError Tokens)
    (newSessionId : String) (options : Option HandleCallbackOptions)
    (st : KVState) (oid : String) (sess : OAuthSession) (tokens : Tokens)
    (ov : CookieOverrides)
    (hc : getCookies reqCookies
      (getCookieName OAUTH_COOKIE_NAME (isHttps reqUrl)) = some oid)
    (hs : kvGet st.oauth now oid = some sess)
    (hx : getToken reqUrl sess = .ok tokens)
    (hov : ov = (options.bind (·.cookieOptions)).getD {})
    (hsec : ov.secure = none) (hname : ov.name = none)
    (hval : ov.value = none) :
    (handleCallback now reqUrl reqCookies getToken newSessionId options
        st).2 =
      .ok { response := setCookie (redirect sess.successUrl)
              (siteCookie (isHttps reqUrl) newSessionId ov),
            sessionId := newSessionId,
            tokens := tokens } ∧
    (setCookie (redirect sess.successUrl)
        (siteCookie (isHttps reqUrl) newSessionId ov)).setCookies =
      [siteCookie (isHttps reqUrl) newSessionId ov] ∧
    (siteCookie (isHttps reqUrl) newSessionId ov).secure =
      some (isHttps reqUrl) ∧
    (siteCookie (isHttps reqUrl) newSessionId ov).name =
      getCookieName SITE_COOKIE_NAME (isHttps reqUrl) ∧
    (siteCookie (isHttps reqUrl) newSessionId ov).value = newSessionId := by
  subst hov
  refine ⟨?_, rfl, ?_, ?_, ?_⟩
  · simp [handleCallback, hc, getAndDeleteOAuthSession, hs, hx]
  · simp [siteCookie, applyOverrides, hsec]
  · simp [siteCookie, applyOverrides, hname]
  · simp [siteCookie, applyOverrides, hval]

/-- Witness for the amended C1 at a concrete HTTPS callback with no
overrides. -/
theorem handleCallback_secure_no_override_witness :
    getCookies [("__Secure-oauth-session", "o1")]
      (getCookieName OAUTH_COOKIE_NAME (isHttps "https://x.example/cb")) =
      some "o1" ∧
    kvGet ([("o1", ⟨⟨"s", "v", "/done"⟩, none⟩)] : KV OAuthSession) 0
      "o1" = some ⟨"s", "v", "/done"⟩ ∧
    ({} : CookieOverrides).secure = none ∧
    ((handleCallback 0 "https://x.example/cb"
        [("__Secure-oauth-session", "o1")]
        (fun _ _ => .ok { accessToken := "tok" }) "sid" none
        { oauth := [("o1", ⟨⟨"s", "v", "/done"⟩, none⟩)],
          site := [] }).2 =
      .ok { response := setCookie (redirect "/done")
              (siteCookie (isHttps "https://x.example/cb") "sid" {}),
            sessionId := "sid",
            tokens := { accessToken := "tok" } } ∧
    (setCookie (redirect "/done")
        (siteCookie (isHttps "https://x.example/cb") "sid" {})).setCookies =
      [siteCookie (isHttps "https://x.example/cb") "sid" {}] ∧
    (siteCookie (isHttps "https://x.example/cb") "sid" {}).secure =
      some (isHttps "https://x.example/cb") ∧
    (siteCookie (isHttps "https://x.example/cb") "sid" {}).name =
      getCookieName SITE_COOKIE_NAME (isHttps "https://x.example/cb") ∧
    (siteCookie (isHttps "https://x.example/cb") "sid" {}).value =
      "sid") :=
  ⟨by decide, by decide, rfl,
    handleCallback_secure_no_override 0 "https://x.example/cb"
      [("__Secure-oauth-session", "o1")]
      (fun _ _ => .ok { accessToken := "tok" }) "sid" none
      { oauth := [("o1", ⟨⟨"s", "v", "/done"⟩, none⟩)], site := [] }
      "o1" ⟨"s", "v", "/done"⟩ { accessToken := "tok" } {}
      (by decide) (by decide) rfl rfl rfl rfl rfl⟩

/-- C7 as stated is false on the code at a configured `maxAge` of `0`:
the TypeScript expression `cookie.maxAge ? cookie.maxAge * SECOND :
undefined` treats the configured `0` as falsy, so no TTL is passed and
the site session record is stored without expiry (`expiresAt = none`),
not with the claimed `0 · SECOND` expiry away from `now = 0`. -/
theorem siteSession_ttl_zero_counterexample :
    ((handleCallback 0 "http://x.example/cb" [("oauth-session", "o1")]
        (fun _ _ => .ok { accessToken := "tok" }) "sid"
        (some { cookieOptions := some { maxAge := some 0 } })
        { oauth := [("o1", ⟨⟨"s", "v", "/done"⟩, none⟩)], site := [] }
      ).1).site.lookup "sid" = some ⟨(), none⟩ ∧
    (some ⟨(), (none : Option Time)⟩ : Option (Entry Unit)) ≠
      some ⟨(), some (0 + 0 * SECOND)⟩ :=
  ⟨by decide, by decide⟩

/-- C7 (amended): for a successful callback the site session record is
created with expiry `now + maxAge · SECOND` (cookie seconds converted
to the store's milliseconds) whenever a nonzero `maxAge` is configured
in the effective cookie options, and with no expiry (unbounded record)
when `maxAge` is absent or zero. -/
theorem handleCallback_site_ttl (now : Time) (reqUrl : String)
    (reqCookies : List (String × String))
    (getToken : String → OAuthSession → Except OAuthError Tokens)
    (newSessionId : String) (options : Option HandleCallbackOptions)
    (st : KVState) (oid : String) (sess : OAuthSession) (tokens : Tokens)
    (ov : CookieOverrides)
    (hc : getCookies reqCookies
      (getCookieName OAUTH_COOKIE_NAME (isHttps reqUrl)) = some oid)
    (hs : kvGet st.oauth now oid = some sess)
    (hx : getToken reqUrl sess = .ok tokens)
    (hov : ov = (options.bind (·.cookieOptions)).getD {}) :
    ((handleCallback now reqUrl reqCookies getToken newSessionId options
        st).1).site.lookup newSessionId =
      some ⟨(), match ov.maxAge with
                | some m =>
                    if m = 0 then none else some (now + m * SECOND)
                | none => none⟩ := by
  subst hov
  have hrun : (handleCallback now reqUrl reqCookies getToken newSessionId
      options st).1.site =
      setSiteSession now newSessionId
        (siteSessionTtl (siteCookie (isHttps reqUrl) newSessionId
          ((options.bind (·.cookieOptions)).getD {})).maxAge) st.site := by
    simp [handleCallback, hc, getAndDeleteOAuthSession, hs, hx]
  rw [hrun]
  have hma : (siteCookie (isHttps reqUrl) newSessionId
      ((options.bind (·.cookieOptions)).getD {})).maxAge =
      ((options.bind (·.cookieOptions)).getD {}).maxAge := by
    simp [siteCookie, applyOverrides, COOKIE_BASE]
  rw [setSiteSession, lookup_kvSet_self, hma]
  cases hm : ((options.bind (·.cookieOptions)).getD {}).maxAge with
  | none => simp [siteSessionTtl]
  | some m =>
    by_cases hz : m = 0
    · simp [siteSessionTtl, hz]
    · simp [siteSessionTtl, hz]

/-- Witness for the amended C7 at a configured `maxAge` of 60 seconds:
the record expires at `0 + 60 · SECOND` milliseconds. -/
theorem handleCallback_site_ttl_witness :
    getCookies [("oauth-session", "o1")]
      (getCookieName OAUTH_COOKIE_NAME (isHttps "http://x.example/cb")) =
      some "o1" ∧
    kvGet ([("o1", ⟨⟨"s", "v", "/done"⟩, none⟩)] : KV OAuthSession) 0
      "o1" = some ⟨"s", "v", "/done"⟩ ∧
    (({ maxAge := some 60 } : CookieOverrides) =
      ((some { cookieOptions := some { maxAge := some 60 } } :
        Option HandleCallbackOptions).bind (·.cookieOptions)).getD {}) ∧
    ((handleCallback 0 "http://x.example/cb" [("oauth-session", "o1")]
        (fun _ _ => .ok { accessToken := "tok" }) "sid"
        (some { cookieOptions := some { maxAge := some 60 } })
        { oauth := [("o1", ⟨⟨"s", "v", "/done"⟩, none⟩)], site := [] }
      ).1).site.lookup "sid" = some ⟨(), some (0 + 60 * SECOND)⟩ :=
  ⟨by decide, by decide, rfl,
    handleCallback_site_ttl 0 "http://x.example/cb"
      [("oauth-session", "o1")]
      (fun _ _ => .ok { accessToken := "tok" }) "sid"
      (some { cookieOptions := some { maxAge := some 60 } })
      { oauth := [("o1", ⟨⟨"s", "v", "/done"⟩, none⟩)], site := [] }
      "o1" ⟨"s", "v", "/done"⟩ { accessToken := "tok" }
      { maxAge := some 60 } (by decide) (by decide) rfl rfl⟩

/-- C9: with `cookieOptions.maxAge = 0`, the successful callback creates
the site session record with no TTL (unbounded, `expiresAt = none`)
because the TTL argument is passed only when `maxAge` is truthy, even
though the emitted site cookie itself carries `Max-Age = 0`. -/
theorem handleCallback_maxAge_zero_unbounded (now : Time)
    (reqUrl : String) (reqCookies : List (String × String))
    (getToken : String → OAuthSession → Except OAuthError Tokens)
    (newSessionId : String) (options : Option HandleCallbackOptions)
    (st : KVState) (oid : String) (sess : OAuthSession) (tokens : Tokens)
    (ov : CookieOverrides)
    (hc : getCookies reqCookies
      (getCookieName OAUTH_COOKIE_NAME (isHttps reqUrl)) = some oid)
    (hs : kvGet st.oauth now oid = some sess)
    (hx : getToken reqUrl sess = .ok tokens)
    (hov : ov = (options.bind (·.cookieOptions)).getD {})
    (hmz : ov.maxAge = some 0) :
    ((handleCallback now reqUrl reqCookies getToken newSessionId options
        st).1).site.lookup newSessionId = some ⟨(), none⟩ ∧
    (handleCallback now reqUrl reqCookies getToken newSessionId options
        st).2.map (fun out => out.response.setCookies.map (·.maxAge)) =
      .ok [some 0] := by
  subst hov
  have hma : (siteCookie (isHttps reqUrl) newSessionId
      ((options.bind (·.cookieOptions)).getD {})).maxAge = some 0 := by
    simp [siteCookie, applyOverrides, COOKIE_BASE, hmz]
  constructor
  · have hrun : (handleCallback now reqUrl reqCookies getToken
        newSessionId options st).1.site =
        setSiteSession now newSessionId
          (siteSessionTtl (siteCookie (isHttps reqUrl) newSessionId
            ((options.bind (·.cookieOptions)).getD {})).maxAge)
          st.site := by
      simp [handleCallback, hc, getAndDeleteOAuthSession, hs, hx]
    rw [hrun, setSiteSession, lookup_kvSet_self, hma]
    simp [siteSessionTtl]
  · have hrun2 : (handleCallback now reqUrl reqCookies getToken
        newSessionId options st).2 =
        .ok { response := setCookie (redirect sess.successUrl)
                (siteCookie (isHttps reqUrl) newSessionId
                  ((options.bind (·.cookieOptions)).getD {})),
              sessionId := newSessionId,
              tokens := tokens } := by
      simp [handleCallback, hc, getAndDeleteOAuthSession, hs, hx]
    rw [hrun2]
    simp [setCookie, redirect, Except.map, hma]

/-- Witness for C9 at a concrete callback with `maxAge = 0`. -/
theorem handleCallback_maxAge_zero_unbounded_witness :
    getCookies [("oauth-session", "o1")]
      (getCookieName OAUTH_COOKIE_NAME (isHttps "http://x.example/cb")) =
      some "o1" ∧
    kvGet ([("o1", ⟨⟨"s", "v", "/done"⟩, none⟩)] : KV OAuthSession) 0
      "o1" = some ⟨"s", "v", "/done"⟩ ∧
    ({ maxAge := some 0 } : CookieOverrides).maxAge = some 0 ∧
    (((handleCallback 0 "http://x.example/cb" [("oauth-session", "o1")]
        (fun _ _ => .ok { accessToken := "tok" }) "sid"
        (some { cookieOptions := some { maxAge := some 0 } })
        { oauth := [("o1", ⟨⟨"s", "v", "/done"⟩, none⟩)], site := [] }
      ).1).site.lookup "sid" = some ⟨(), none⟩ ∧
    (handleCallback 0 "http://x.example/cb" [("oauth-session", "o1")]
        (fun _ _ => .ok { accessToken := "tok" }) "sid"
        (some { cookieOptions := some { maxAge := some 0 } })
        { oauth := [("o1", ⟨⟨"s", "v", "/done"⟩, none⟩)], site := [] }
      ).2.map (fun out => out.response.setCookies.map (·.maxAge)) =
      .ok [some 0]) :=
  ⟨by decide, by decide, rfl,
    handleCallback_maxAge_zero_unbounded 0 "http://x.example/cb"
      [("oauth-session", "o1")]
      (fun _ _ => .ok { accessToken := "tok" }) "sid"
      (some { cookieOptions := some { maxAge := some 0 } })
      { oauth := [("o1", ⟨⟨"s", "v", "/done"⟩, none⟩)], site := [] }
      "o1" ⟨"s", "v", "/done"⟩ { accessToken := "tok" }
      { maxAge := some 0 } (by decide) (by decide) rfl rfl rfl⟩

/-- C8: cookie naming is a deterministic pure function, identical
between writer and reader for a fixed purpose and request scheme: the
handshake cookie sign-in sets is found under the very name the callback
reads (`getCookieName OAUTH_COOKIE_NAME` of the scheme); the site
cookie name the callback computes (absent a `name` override) equals
`getCookieName SITE_COOKIE_NAME` of the scheme, and a request carrying
that cookie is resolved by session lookup and acted on by sign-out. -/
theorem getCookieName_write_read_stable (now : Time) (reqUrl : String)
    (referer sUrlOpt : Option String) (authUrl stt cv oid sid : String)
    (kv : KV OAuthSession) (ov : CookieOverrides)
    (hname : ov.name = none) :
    (∀ c ∈ ((signIn now reqUrl referer authUrl stt cv oid sUrlOpt
        kv).2).setCookies,
      getCookies [(c.name, c.value)]
        (getCookieName OAUTH_COOKIE_NAME (isHttps reqUrl)) = some oid) ∧
    (siteCookie (isHttps reqUrl) sid ov).name =
      getCookieName SITE_COOKIE_NAME (isHttps reqUrl) ∧
    (∀ site : KV Unit,
      getSessionId now reqUrl
        [((siteCookie (isHttps reqUrl) sid ov).name, sid)] none site =
        if (kvGet site now sid).isSome then some sid else none) ∧
    (∀ site : KV Unit,
      (signOut now reqUrl
        [((siteCookie (isHttps reqUrl) sid ov).name, sid)] none
        site).1 = kvDelete site sid) := by
  have h2 : (siteCookie (isHttps reqUrl) sid ov).name =
      getCookieName SITE_COOKIE_NAME (isHttps reqUrl) := by
    simp [siteCookie, applyOverrides, hname]
  refine ⟨?_, h2, fun site => ?_, fun site => ?_⟩
  · intro c hcmem
    have : c = { name := getCookieName OAUTH_COOKIE_NAME (isHttps reqUrl)
                 value := oid
                 secure := some (isHttps reqUrl)
                 httpOnly := COOKIE_BASE.httpOnly
                 sameSite := COOKIE_BASE.sameSite
                 path := COOKIE_BASE.path
                 domain := COOKIE_BASE.domain
                 maxAge := COOKIE_BASE.maxAge } := by
      simpa [signIn, setCookie, redirect] using hcmem
    subst this
    simp [getCookies, List.lookup]
  · rw [h2]
    simp [getSessionId, getCookies, List.lookup]
  · rw [h2]
    simp [signOut, getCookies, List.lookup]

/-- Witness for C8 on an HTTPS request with no name override. -/
theorem getCookieName_write_read_stable_witness :
    ({} : CookieOverrides).name = none ∧
    ((∀ c ∈ ((signIn 0 "https://x.example/signin" none
        "https://idp.example/a" "s" "v" "o1" (some "/done")
        []).2).setCookies,
      getCookies [(c.name, c.value)]
        (getCookieName OAUTH_COOKIE_NAME
          (isHttps "https://x.example/signin")) = some "o1") ∧
    (siteCookie (isHttps "https://x.example/signin") "sid" {}).name =
      getCookieName SITE_COOKIE_NAME
        (isHttps "https://x.example/signin") ∧
    (∀ site : KV Unit,
      getSessionId 0 "https://x.example/signin"
        [((siteCookie (isHttps "https://x.example/signin") "sid"
          {}).name, "sid")] none site =
        if (kvGet site 0 "sid").isSome then some "sid" else none) ∧
    (∀ site : KV Unit,
      (signOut 0 "https://x.example/signin"
        [((siteCookie (isHttps "https://x.example/signin") "sid"
          {}).name, "sid")] none site).1 = kvDelete site "sid")) :=
  ⟨rfl,
    getCookieName_write_read_stable 0 "https://x.example/signin" none
      (some "/done") "https://idp.example/a" "s" "v" "o1" "sid" []
      {} rfl⟩

/-- C10: each helper returned by `createHelpers` is extensionally equal
to the corresponding standalone operation with the construction-time
configuration bound: `signIn` forwards the request and the per-call
options together with the OAuth configuration; `handleCallback` and
`signOut` forward the full construction-time `cookieOptions`;
`getSessionId` forwards only the construction-time
`cookieOptions.name`, as `cookieName`. -/
theorem createHelpers_extensional {Req SIOpts Resp CbRes SoRes GsRes
    Cfg : Type}
    (signIn_ : Req → Cfg → Option SIOpts → Resp)
    (handleCallback_ : Req → Cfg → Option HandleCallbackOptions → CbRes)
    (signOut_ : Req → Option SignOutOptions → SoRes)
    (getSessionId_ : Req → Option GetSessionIdOptions → GsRes)
    (oauthConfig : Cfg) (options : Option CreateHelpersOptions)
    (request : Req) (perCall : Option SIOpts) :
    (createHelpers signIn_ handleCallback_ signOut_ getSessionId_
      oauthConfig options).signIn request perCall =
      signIn_ request oauthConfig perCall ∧
    (createHelpers signIn_ handleCallback_ signOut_ getSessionId_
      oauthConfig options).handleCallback request =
      handleCallback_ request oauthConfig
        (some { cookieOptions := options.bind (·.cookieOptions) }) ∧
    (createHelpers signIn_ handleCallback_ signOut_ getSessionId_
      oauthConfig options).signOut request =
      signOut_ request
        (some { cookieOptions := options.bind (·.cookieOptions) }) ∧
    (createHelpers signIn_ handleCallback_ signOut_ getSessionId_
      oauthConfig options).getSessionId request =
      getSessionId_ request
        (some { cookieName :=
          (options.bind (·.cookieOptions)).bind (·.name) }) :=
  ⟨rfl, rfl, rfl, rfl⟩

end KvOAuth
